import Mathlib

/-!
Verification of the KaraokeTones Demucs vocal-separation service
(src/backend/app.py) against its natural-language specification.

The Flask endpoints are shallowly embedded as pure Lean functions.  A
request is a record of the relevant multipart data; the outcome of the
external demucs subprocess is an explicit `RunResult`; the output
directory tree is the flat list of regular files in `os.walk` traversal
order.  Responses and workspace-release side effects are returned as an
explicit `EndpointResult` record, so cleanup accounting (how many times
`cleanup_temp_files` runs on the workspace before the return, and whether
a deferred `call_on_close` cleanup is scheduled) is visible to theorems.
-/

namespace KaraokeTones

/-! ### String primitives

Python `in` (substring), `str.endswith` and `str.lower` modelled over
`List Char`.  `str.lower` is modelled with `Char.toLower`, which agrees
with Python on ASCII filenames. -/

/-- Does the list `s` start with the list `p`?  Models Python prefix
comparison used to define substring search. -/
def startsL : List Char → List Char → Bool
  | [], _ => true
  | _ :: _, [] => false
  | a :: p, b :: s => a == b && startsL p s

/-- Does `p` occur as a contiguous substring of `s`?  Models Python
`p in s` for strings. -/
def containsL (p : List Char) : List Char → Bool
  | [] => startsL p []
  | b :: s => startsL p (b :: s) || containsL p s

/-- Python `s.endswith(p)`. -/
def strEnds (s p : String) : Bool := startsL p.data.reverse s.data.reverse

/-- Python `p in s` on strings. -/
def containsStr (s p : String) : Bool := containsL p.data s.data

/-- Python `s.lower()` on ASCII. -/
def lowerStr (s : String) : List Char := s.data.map Char.toLower

/-! ### Data model -/

/-- One regular file found under the job output directory: its basename
(`file_name` in the walk loop), full path, and size in bytes. -/
structure FileEntry where
  name : String
  path : String
  size : Nat
deriving DecidableEq

/-- The relevant multipart request data: whether the field `audio` is
present, and the uploaded filename. -/
structure UploadRequest where
  hasAudio : Bool
  filename : String
deriving DecidableEq

/-- Outcome of the `subprocess.run` invocation of demucs:
normal exit with a return code and stderr text, `subprocess.TimeoutExpired`
(with its message), or any other exception raised while staging the file or
running the tool (with its message). -/
inductive RunResult where
  | exited (code : Int) (stderr : String)
  | timedOut (msg : String)
  | raised (msg : String)
deriving DecidableEq

/-- Configured demucs model identifier (`DEMUCS_MODEL` in app.py). -/
def DEMUCS_MODEL : String := "htdemucs_ft"

/-- Upload ceiling in bytes (`MAX_FILE_SIZE` in app.py). -/
def MAX_FILE_SIZE : Nat := 50 * 1024 * 1024

/-- Python `round(bytes / (1024 * 1024), 2)` reported in centi-megabytes
(the JSON value times 100), i.e. the nearest integer to
`bytes * 100 / 2 ^ 20`, ties rounded up.  All concrete inputs used below
are tie-free, where this agrees with the float computation in app.py. -/
def roundCentiMB (bytes : Nat) : Nat := (bytes * 100 + 524288) / 1048576

/-- The JSON summary built by `analyze_vocals` on the success path.
Sizes carry the centi-megabyte integers of `roundCentiMB`. -/
structure AnalysisResult where
  success : Bool
  model : String
  input_file : String
  input_size_cmb : Nat
  vocal_size_cmb : Nat
  accompaniment_size_cmb : Nat
  vocal_extracted : Bool
  processing_time : String
deriving DecidableEq

/-- A JSON response body: a bare error object, an error object with a
details field, or the analysis summary. -/
inductive Body where
  | err (msg : String)
  | errDetails (msg details : String)
  | analysis (r : AnalysisResult)
deriving DecidableEq

/-- The payload of a response: a JSON body or a `send_file` binary
attachment (path, mimetype, download name). -/
inductive Payload where
  | json (body : Body)
  | fileAttachment (path mimetype downloadName : String)
deriving DecidableEq

/-- An HTTP response: status code and payload. -/
structure HttpResponse where
  status : Nat
  payload : Payload
deriving DecidableEq

/-- The observable outcome of one endpoint call: the response, whether the
workspace (the input/output temp-directory pair) was allocated, how many
times it was released synchronously before the return, and whether a
deferred release was scheduled via `response.call_on_close`. -/
structure EndpointResult where
  response : HttpResponse
  workspaceAllocated : Bool
  syncReleases : Nat
  deferredRelease : Bool
deriving DecidableEq

/-! ### Artifact discovery (separate_vocals, app.py lines 101-138) -/

/-- Line 118: the filename, lowercased, contains `vocals` and the filename
ends with `.mp3` or `.wav` (Python `endswith` is case-sensitive). -/
def isVocalMatch (name : String) : Bool :=
  containsL "vocals".data (lowerStr name) && (strEnds name ".mp3" || strEnds name ".wav")

/-- Audio-extension test used by the fallback scan (line 130). -/
def hasAudioExt (name : String) : Bool :=
  strEnds name ".mp3" || strEnds name ".wav"

/-- The walk loop with its break: the first file in traversal order whose
name satisfies `isVocalMatch`. -/
def findVocal : List FileEntry → Option FileEntry
  | [] => none
  | f :: fs => if isVocalMatch f.name then some f else findVocal fs

/-- The fallback scan over `all_files` (lines 129-133): the first file in
traversal order with an audio extension. -/
def findFallback : List FileEntry → Option FileEntry
  | [] => none
  | f :: fs => if hasAudioExt f.name then some f else findFallback fs

/-- Artifact selection of `separate_vocals`: the name-based match if one
exists, otherwise the fallback.  When the name scan finds nothing the walk
has completed, so the fallback sees the whole traversal. -/
def locateArtifact (files : List FileEntry) : Option FileEntry :=
  match findVocal files with
  | some f => some f
  | none => findFallback files

/-! ### Endpoint /separate-vocals (app.py lines 48-172) -/

/-- Shallow embedding of `separate_vocals`.  `run` is the outcome of the
demucs subprocess, `files` the output tree in traversal order. -/
def separate_vocals (req : UploadRequest) (run : RunResult) (files : List FileEntry) :
    EndpointResult :=
  if req.hasAudio = false then
    ⟨⟨400, .json (.err "No audio file provided")⟩, false, 0, false⟩
  else if req.filename = "" then
    ⟨⟨400, .json (.err "No file selected")⟩, false, 0, false⟩
  else
    match run with
    | .exited code stderr =>
      if code ≠ 0 then
        ⟨⟨500, .json (.errDetails "Vocal separation failed" stderr)⟩, true, 0, false⟩
      else
        match locateArtifact files with
        | none => ⟨⟨500, .json (.err "Vocal stem extraction failed")⟩, true, 0, false⟩
        | some f =>
          ⟨⟨200, .fileAttachment f.path "audio/mpeg" ("vocals_" ++ req.filename ++ ".mp3")⟩,
            true, 0, true⟩
    | .timedOut _ =>
      ⟨⟨408, .json (.err "Processing timeout - file too large")⟩, true, 1, false⟩
    | .raised msg =>
      ⟨⟨500, .json (.errDetails "Internal server error" msg)⟩, true, 1, false⟩

/-! ### Endpoint /analyze-vocals (app.py lines 174-251) -/

/-- The output-file scan of `analyze_vocals` (lines 218-223): for each file
in traversal order, if the name contains `vocals.mp3` record it as the
vocal file, else if it contains `no_vocals.mp3` record it as the
accompaniment; later assignments overwrite earlier ones. -/
def findAnalyze (files : List FileEntry) : Option FileEntry × Option FileEntry :=
  files.foldl
    (fun acc f =>
      if containsL "vocals.mp3".data f.name.data then (some f, acc.2)
      else if containsL "no_vocals.mp3".data f.name.data then (acc.1, some f)
      else acc)
    (none, none)

/-- Shallow embedding of `analyze_vocals`.  `inputSize` is the byte size of
the staged upload.  `subprocess.TimeoutExpired` is an `Exception`, so both
`timedOut` and `raised` land in the single generic handler. -/
def analyze_vocals (req : UploadRequest) (inputSize : Nat) (run : RunResult)
    (files : List FileEntry) : EndpointResult :=
  if req.hasAudio = false then
    ⟨⟨400, .json (.err "No audio file provided")⟩, false, 0, false⟩
  else if req.filename = "" then
    ⟨⟨400, .json (.err "No file selected")⟩, false, 0, false⟩
  else
    match run with
    | .exited code _ =>
      if code ≠ 0 then
        ⟨⟨500, .json (.err "Vocal separation failed")⟩, true, 0, false⟩
      else
        match findAnalyze files with
        | (v, a) =>
          let vocalSize := match v with | some f => f.size | none => 0
          let accompSize := match a with | some f => f.size | none => 0
          ⟨⟨200, .json (.analysis ⟨true, DEMUCS_MODEL, req.filename,
              roundCentiMB inputSize, roundCentiMB vocalSize, roundCentiMB accompSize,
              v.isSome, "completed"⟩)⟩, true, 1, false⟩
    | .timedOut msg =>
      ⟨⟨500, .json (.errDetails "Analysis failed" msg)⟩, true, 1, false⟩
    | .raised msg =>
      ⟨⟨500, .json (.errDetails "Analysis failed" msg)⟩, true, 1, false⟩

/-! ### Workspace release (cleanup_temp_files, app.py lines 31-37)

The filesystem is the list of currently existing directory trees;
`rmtreeFail p = some e` means `shutil.rmtree p` would raise exception `e`
(e.g. a permission error).  The boolean in the result records whether an
exception propagated to the caller. -/

/-- Shallow embedding of `cleanup_temp_files`: if the path exists, attempt
`shutil.rmtree`; a raised exception is caught and only logged (the `except
Exception` block), so it never propagates. -/
def cleanup_temp_files (rmtreeFail : String → Option String) (fs : List String)
    (p : String) : List String × Bool :=
  if p ∈ fs then
    match rmtreeFail p with
    | none => (fs.filter (fun q => q ≠ p), false)
    | some _ => (fs, false)
  else
    (fs, false)

/-! ### Helper lemmas on the string primitives -/

/-- `startsL p s` holds exactly when `s` extends `p`. -/
theorem startsL_iff (p : List Char) : ∀ s : List Char,
    startsL p s = true ↔ ∃ t, s = p ++ t := by
  induction p with
  | nil =>
    intro s
    simp [startsL]
  | cons a as ih =>
    intro s
    cases s with
    | nil =>
      simp [startsL]
    | cons b bs =>
      simp only [startsL, Bool.and_eq_true, beq_iff_eq, ih, List.cons_append, List.cons.injEq]
      constructor
      · rintro ⟨rfl, t, rfl⟩
        exact ⟨t, rfl, rfl⟩
      · rintro ⟨t, rfl, rfl⟩
        exact ⟨rfl, t, rfl⟩

/-- `containsL p s` holds exactly when `p` occurs contiguously in `s`. -/
theorem containsL_iff (p : List Char) : ∀ s : List Char,
    containsL p s = true ↔ ∃ u v, s = u ++ p ++ v := by
  intro s
  induction s with
  | nil =>
    simp only [containsL, startsL_iff]
    constructor
    · rintro ⟨t, ht⟩
      exact ⟨[], t, ht⟩
    · rintro ⟨u, v, huv⟩
      have hp : p = [] := by
        rcases List.append_eq_nil.mp huv.symm with ⟨h1, h2⟩
        exact (List.append_eq_nil.mp h1).2
      exact ⟨[], by simp [hp]⟩
  | cons b bs ih =>
    simp only [containsL, Bool.or_eq_true, startsL_iff, ih]
    constructor
    · rintro (⟨t, ht⟩ | ⟨u, v, rfl⟩)
      · exact ⟨[], t, by simpa using ht⟩
      · exact ⟨b :: u, v, by simp⟩
    · rintro ⟨u, v, huv⟩
      cases u with
      | nil =>
        exact Or.inl ⟨v, by simpa using huv⟩
      | cons c u =>
        simp only [List.cons_append, List.cons.injEq] at huv
        exact Or.inr ⟨u, v, huv.2⟩

/-- Any name containing `no_vocals.mp3` also contains `vocals.mp3`, so the
`elif` branch of the analyze scan (app.py line 222) is unreachable. -/
theorem contains_no_vocals (l : List Char)
    (h : containsL "no_vocals.mp3".data l = true) :
    containsL "vocals.mp3".data l = true := by
  rw [containsL_iff] at h ⊢
  obtain ⟨u, v, rfl⟩ := h
  refine ⟨u ++ "no_".data, v, ?_⟩
  have hsplit : "no_vocals.mp3".data = "no_".data ++ "vocals.mp3".data := by decide
  rw [hsplit]
  simp

/-! ### Helper lemmas on artifact discovery -/

/-- A name-based match returned by the walk loop satisfies the match
predicate. -/
theorem findVocal_some (files : List FileEntry) (f : FileEntry)
    (h : findVocal files = some f) : isVocalMatch f.name = true := by
  induction files with
  | nil =>
    simp [findVocal] at h
  | cons g gs ih =>
    simp only [findVocal] at h
    split at h
    · cases h
      assumption
    · exact ih h

/-- When no file matches the vocal pattern, the walk loop finds nothing. -/
theorem findVocal_none (files : List FileEntry)
    (h : ∀ g ∈ files, isVocalMatch g.name = false) : findVocal files = none := by
  induction files with
  | nil => rfl
  | cons g gs ih =>
    have hg := h g (by simp)
    simp only [findVocal, hg, Bool.false_eq_true, if_false]
    exact ih fun x hx => h x (by simp [hx])

/-- The walk loop returns the first matching file in traversal order. -/
theorem findVocal_first (pre : List FileEntry) (f : FileEntry) (rest : List FileEntry)
    (hpre : ∀ g ∈ pre, isVocalMatch g.name = false)
    (hf : isVocalMatch f.name = true) :
    findVocal (pre ++ f :: rest) = some f := by
  induction pre with
  | nil =>
    simp [findVocal, hf]
  | cons g gs ih =>
    have hg := hpre g (by simp)
    simp only [List.cons_append, findVocal, hg, Bool.false_eq_true, if_false]
    exact ih fun x hx => hpre x (by simp [hx])

/-- When no file has an audio extension, the fallback scan finds nothing. -/
theorem findFallback_none (files : List FileEntry)
    (h : ∀ g ∈ files, hasAudioExt g.name = false) : findFallback files = none := by
  induction files with
  | nil => rfl
  | cons g gs ih =>
    have hg := h g (by simp)
    simp only [findFallback, hg, Bool.false_eq_true, if_false]
    exact ih fun x hx => h x (by simp [hx])

/-- The fallback scan returns the first audio-extension file in traversal
order. -/
theorem findFallback_first (pre : List FileEntry) (f : FileEntry) (rest : List FileEntry)
    (hpre : ∀ g ∈ pre, hasAudioExt g.name = false)
    (hf : hasAudioExt f.name = true) :
    findFallback (pre ++ f :: rest) = some f := by
  induction pre with
  | nil =>
    simp [findFallback, hf]
  | cons g gs ih =>
    have hg := hpre g (by simp)
    simp only [List.cons_append, findFallback, hg, Bool.false_eq_true, if_false]
    exact ih fun x hx => hpre x (by simp [hx])

/-- A vocal-pattern match always has an audio extension. -/
theorem isVocalMatch_audio (name : String) (h : isVocalMatch name = true) :
    hasAudioExt name = true := by
  simp only [isVocalMatch, Bool.and_eq_true] at h
  simpa [hasAudioExt] using h.2

/-- When no file in the tree contains `vocals.mp3` in its name, the analyze
scan records neither a vocal nor an accompaniment file (the accompaniment
branch is unreachable by `contains_no_vocals`). -/
theorem findAnalyze_none (files : List FileEntry)
    (h : ∀ f ∈ files, containsL "vocals.mp3".data f.name.data = false) :
    findAnalyze files = (none, none) := by
  unfold findAnalyze
  induction files with
  | nil => rfl
  | cons f fs ih =>
    have h1 := h f (by simp)
    have h2 : containsL "no_vocals.mp3".data f.name.data = false := by
      by_contra hc
      rw [Bool.not_eq_false] at hc
      rw [contains_no_vocals _ hc] at h1
      cases h1
    simp only [List.foldl_cons, h1, h2, Bool.false_eq_true, if_false]
    exact ih fun x hx => h x (by simp [hx])

/-! ### Claim theorems -/

/-- C1: the claimed invariant — the workspace is released exactly once on
every exit path — fails in the code.  On the tool-failure path (non-zero
exit) both endpoints return 500 from inside the try block without any
synchronous or deferred release, and /separate-vocals does the same on the
artifact-not-found path: the temporary directories leak.  This contradicts
the cleanup discipline the code itself applies on the timeout, exception
and success paths, so it is a code bug. -/
theorem C1_tool_failure_leaks_workspace :
    (separate_vocals ⟨true, "song.mp3"⟩ (.exited 1 "demucs error") []).workspaceAllocated = true
    ∧ (separate_vocals ⟨true, "song.mp3"⟩ (.exited 1 "demucs error") []).syncReleases = 0
    ∧ (separate_vocals ⟨true, "song.mp3"⟩ (.exited 1 "demucs error") []).deferredRelease = false
    ∧ (separate_vocals ⟨true, "song.mp3"⟩ (.exited 0 "") []).syncReleases = 0
    ∧ (separate_vocals ⟨true, "song.mp3"⟩ (.exited 0 "") []).deferredRelease = false
    ∧ (analyze_vocals ⟨true, "song.mp3"⟩ 1000 (.exited 1 "demucs error") []).workspaceAllocated
        = true
    ∧ (analyze_vocals ⟨true, "song.mp3"⟩ 1000 (.exited 1 "demucs error") []).syncReleases = 0
    ∧ (analyze_vocals ⟨true, "song.mp3"⟩ 1000 (.exited 1 "demucs error") []).deferredRelease
        = false := by
  decide

/-- C2 counterexample: the match on line 118 does not exclude `no_vocals`,
so an output tree whose only file is `no_vocals.mp3` gets that file
selected as the primary artifact and streamed back — the claim says it is
never selected. -/
theorem C2_counterexample :
    separate_vocals ⟨true, "song.mp3"⟩ (.exited 0 "")
      [⟨"no_vocals.mp3", "/out/track/no_vocals.mp3", 100⟩] =
    ⟨⟨200, .fileAttachment "/out/track/no_vocals.mp3" "audio/mpeg" "vocals_song.mp3.mp3"⟩,
      true, 0, true⟩ := by
  decide

/-- C2 (amended): a file is classified as the primary artifact when it is
the first file in traversal order whose lowercased name contains the
substring `vocals` and whose name ends with `.mp3` or `.wav`; the substring
`no_vocals` is not excluded, so `no_vocals.mp3` can be selected. -/
theorem C2_primary_selection (files : List FileEntry) (f : FileEntry)
    (h : findVocal files = some f) :
    locateArtifact files = some f
    ∧ containsL "vocals".data (lowerStr f.name) = true
    ∧ (strEnds f.name ".mp3" = true ∨ strEnds f.name ".wav" = true) := by
  have hm := findVocal_some files f h
  simp only [isVocalMatch, Bool.and_eq_true, Bool.or_eq_true] at hm
  exact ⟨by simp [locateArtifact, h], hm.1, hm.2⟩

/-- C2 witness: instantiation at the single-file tree `no_vocals.mp3`. -/
theorem C2_witness :
    locateArtifact [⟨"no_vocals.mp3", "/p", 1⟩] = some ⟨"no_vocals.mp3", "/p", 1⟩
    ∧ containsL "vocals".data (lowerStr "no_vocals.mp3") = true
    ∧ (strEnds "no_vocals.mp3" ".mp3" = true ∨ strEnds "no_vocals.mp3" ".wav" = true) :=
  C2_primary_selection [⟨"no_vocals.mp3", "/p", 1⟩] ⟨"no_vocals.mp3", "/p", 1⟩ (by decide)

/-- C3: the claimed scenario fails in the code.  With the output tree
`track/vocals.mp3` (2202010 bytes ≈ 2.1 MB) then `track/no_vocals.mp3`
(3565158 bytes ≈ 3.4 MB) and a 5242880-byte (5.0 MB) input, the scan on
line 220 also matches `no_vocals.mp3` (the string `vocals.mp3` is a
substring of `no_vocals.mp3`), overwrites the vocal file with it, and the
`elif` for the accompaniment never fires: the response reports
vocal_size_mb 3.4 and accompaniment_size_mb 0 instead of the claimed 2.1
and 3.4.  The unreachable `elif` shows the code contradicts its own
intent, so it is a code bug. -/
theorem C3_divergence :
    analyze_vocals ⟨true, "song.mp3"⟩ 5242880 (.exited 0 "")
      [⟨"vocals.mp3", "/out/track/vocals.mp3", 2202010⟩,
       ⟨"no_vocals.mp3", "/out/track/no_vocals.mp3", 3565158⟩] =
    ⟨⟨200, .json (.analysis ⟨true, "htdemucs_ft", "song.mp3", 500, 340, 0, true, "completed"⟩)⟩,
      true, 1, false⟩ := by
  decide

/-- C4 counterexample: Python `endswith` is case-sensitive, so a tree whose
only file is `Vocals.WAV` yields no primary artifact at all and the request
fails 500 — the claim says the file is selected as primary. -/
theorem C4_counterexample :
    separate_vocals ⟨true, "song.mp3"⟩ (.exited 0 "")
      [⟨"Vocals.WAV", "/out/track/Vocals.WAV", 100⟩] =
    ⟨⟨500, .json (.err "Vocal stem extraction failed")⟩, true, 0, false⟩ := by
  decide

/-- C4 (amended): matching is case-tolerant in the name but case-sensitive
in the extension: a file whose lowercased name contains `vocals` and whose
name ends with the lowercase `.mp3` or `.wav` (e.g. `Vocals.wav`) is
selected as primary when no earlier file matches; `Vocals.WAV` is not
matched. -/
theorem C4_case_tolerance (pre : List FileEntry) (f : FileEntry) (rest : List FileEntry)
    (h1 : containsL "vocals".data (lowerStr f.name) = true)
    (h2 : strEnds f.name ".mp3" = true ∨ strEnds f.name ".wav" = true)
    (hpre : ∀ g ∈ pre, isVocalMatch g.name = false) :
    locateArtifact (pre ++ f :: rest) = some f := by
  have hm : isVocalMatch f.name = true := by
    simp only [isVocalMatch, Bool.and_eq_true, Bool.or_eq_true]
    exact ⟨h1, h2⟩
  simp [locateArtifact, findVocal_first pre f rest hpre hm]

/-- C4 witness: instantiation at the single-file tree `Vocals.wav`. -/
theorem C4_witness :
    locateArtifact [⟨"Vocals.wav", "/p", 1⟩] = some ⟨"Vocals.wav", "/p", 1⟩ :=
  C4_case_tolerance [] ⟨"Vocals.wav", "/p", 1⟩ [] (by decide) (Or.inr (by decide)) (by simp)

/-- C5 counterexample: /analyze-vocals has no dedicated timeout handler;
`subprocess.TimeoutExpired` lands in the generic `except Exception` block,
so a timeout is answered 500 with `Analysis failed`, not the claimed
408. -/
theorem C5_counterexample :
    analyze_vocals ⟨true, "song.mp3"⟩ 5242880 (.timedOut "timed out after 600 seconds") [] =
      ⟨⟨500, .json (.errDetails "Analysis failed" "timed out after 600 seconds")⟩, true, 1, false⟩
    ∧ (analyze_vocals ⟨true, "song.mp3"⟩ 5242880
        (.timedOut "timed out after 600 seconds") []).response.status ≠ 408 := by
  decide

/-- C5 (amended): on timeout /separate-vocals answers 408 with
`Processing timeout - file too large` and releases the workspace once
before returning; /analyze-vocals answers 500 with `Analysis failed`
(generic handler), also releasing the workspace once before returning. -/
theorem C5_timeout_behavior (req : UploadRequest) (msg : String) (files : List FileEntry)
    (inputSize : Nat) (hA : req.hasAudio = true) (hF : req.filename ≠ "") :
    separate_vocals req (.timedOut msg) files =
      ⟨⟨408, .json (.err "Processing timeout - file too large")⟩, true, 1, false⟩
    ∧ analyze_vocals req inputSize (.timedOut msg) files =
      ⟨⟨500, .json (.errDetails "Analysis failed" msg)⟩, true, 1, false⟩ := by
  constructor
  · simp [separate_vocals, hA, hF]
  · simp [analyze_vocals, hA, hF]

/-- C5 witness: instantiation at a concrete timed-out request. -/
theorem C5_witness :
    separate_vocals ⟨true, "a.mp3"⟩ (.timedOut "t") [] =
      ⟨⟨408, .json (.err "Processing timeout - file too large")⟩, true, 1, false⟩
    ∧ analyze_vocals ⟨true, "a.mp3"⟩ 7 (.timedOut "t") [] =
      ⟨⟨500, .json (.errDetails "Analysis failed" "t")⟩, true, 1, false⟩ :=
  C5_timeout_behavior ⟨true, "a.mp3"⟩ "t" [] 7 rfl (by decide)

/-- C6: when no file in the tree matches the vocal name pattern, the first
audio-extension file in traversal order is selected as primary and
streamed; when additionally no audio-extension file exists anywhere, the
request fails 500 with `Vocal stem extraction failed`. -/
theorem C6_fallback (req : UploadRequest) (hA : req.hasAudio = true) (hF : req.filename ≠ "") :
    (∀ pre f rest, (∀ g ∈ pre, hasAudioExt g.name = false) → hasAudioExt f.name = true →
      (∀ g ∈ pre ++ f :: rest, isVocalMatch g.name = false) →
      separate_vocals req (.exited 0 "") (pre ++ f :: rest) =
        ⟨⟨200, .fileAttachment f.path "audio/mpeg" ("vocals_" ++ req.filename ++ ".mp3")⟩,
          true, 0, true⟩)
    ∧ (∀ files : List FileEntry, (∀ g ∈ files, hasAudioExt g.name = false) →
      separate_vocals req (.exited 0 "") files =
        ⟨⟨500, .json (.err "Vocal stem extraction failed")⟩, true, 0, false⟩) := by
  constructor
  · intro pre f rest hpre hf hnv
    have h1 : findVocal (pre ++ f :: rest) = none := findVocal_none _ hnv
    have h2 : findFallback (pre ++ f :: rest) = some f := findFallback_first pre f rest hpre hf
    simp [separate_vocals, hA, hF, locateArtifact, h1, h2]
  · intro files hall
    have h1 : findVocal files = none := by
      refine findVocal_none files fun g hg => ?_
      by_contra hc
      rw [Bool.not_eq_false] at hc
      have := hall g hg
      rw [isVocalMatch_audio g.name hc] at this
      cases this
    have h2 : findFallback files = none := findFallback_none files hall
    simp [separate_vocals, hA, hF, locateArtifact, h1, h2]

/-- C6 witness: a tree with one non-vocal audio file is streamed as the
fallback primary; an empty tree yields the 500 extraction failure. -/
theorem C6_witness :
    separate_vocals ⟨true, "a.mp3"⟩ (.exited 0 "") [⟨"other.mp3", "/p/other.mp3", 5⟩] =
      ⟨⟨200, .fileAttachment "/p/other.mp3" "audio/mpeg" "vocals_a.mp3.mp3"⟩, true, 0, true⟩
    ∧ separate_vocals ⟨true, "a.mp3"⟩ (.exited 0 "") [] =
      ⟨⟨500, .json (.err "Vocal stem extraction failed")⟩, true, 0, false⟩ := by
  have h := C6_fallback ⟨true, "a.mp3"⟩ rfl (by decide)
  exact ⟨h.1 [] ⟨"other.mp3", "/p/other.mp3", 5⟩ [] (by simp) (by decide) (by decide),
         h.2 [] (by simp)⟩

/-- C7: a request without the `audio` multipart field is answered 400 with
`No audio file provided`; a request with an empty filename is answered 400
with `No file selected`; in both cases no workspace is allocated, on both
endpoints. -/
theorem C7_input_validation (name : String) (run : RunResult) (files : List FileEntry)
    (inputSize : Nat) :
    separate_vocals ⟨false, name⟩ run files =
      ⟨⟨400, .json (.err "No audio file provided")⟩, false, 0, false⟩
    ∧ analyze_vocals ⟨false, name⟩ inputSize run files =
      ⟨⟨400, .json (.err "No audio file provided")⟩, false, 0, false⟩
    ∧ separate_vocals ⟨true, ""⟩ run files =
      ⟨⟨400, .json (.err "No file selected")⟩, false, 0, false⟩
    ∧ analyze_vocals ⟨true, ""⟩ inputSize run files =
      ⟨⟨400, .json (.err "No file selected")⟩, false, 0, false⟩ := by
  refine ⟨?_, ?_, ?_, ?_⟩ <;> simp [separate_vocals, analyze_vocals]

/-- C8: on success the primary artifact is emitted as a binary attachment
with content type audio/mpeg and download name vocals_<original>.mp3, with
no synchronous release before the return and the release deferred to the
response close callback. -/
theorem C8_stream_artifact (req : UploadRequest) (stderr : String) (files : List FileEntry)
    (f : FileEntry) (hA : req.hasAudio = true) (hF : req.filename ≠ "")
    (hloc : locateArtifact files = some f) :
    separate_vocals req (.exited 0 stderr) files =
      ⟨⟨200, .fileAttachment f.path "audio/mpeg" ("vocals_" ++ req.filename ++ ".mp3")⟩,
        true, 0, true⟩ := by
  simp [separate_vocals, hA, hF, hloc]

/-- C8 witness: instantiation at a tree containing `vocals.mp3`. -/
theorem C8_witness :
    separate_vocals ⟨true, "song.mp3"⟩ (.exited 0 "") [⟨"vocals.mp3", "/o/t/vocals.mp3", 9⟩] =
      ⟨⟨200, .fileAttachment "/o/t/vocals.mp3" "audio/mpeg" "vocals_song.mp3.mp3"⟩,
        true, 0, true⟩ :=
  C8_stream_artifact ⟨true, "song.mp3"⟩ "" [⟨"vocals.mp3", "/o/t/vocals.mp3", 9⟩]
    ⟨"vocals.mp3", "/o/t/vocals.mp3", 9⟩ rfl (by decide) (by decide)

/-- C9: cleanup_temp_files never propagates an exception to its caller, is
a no-op on a missing directory (empty filesystem), and calling it a second
time on the state left by a first call is again exception-free and changes
nothing, for every removal-failure behavior of the filesystem. -/
theorem C9_release_safe (rmtreeFail : String → Option String) (fs : List String) (p : String) :
    (cleanup_temp_files rmtreeFail fs p).2 = false
    ∧ cleanup_temp_files rmtreeFail [] p = ([], false)
    ∧ cleanup_temp_files rmtreeFail (cleanup_temp_files rmtreeFail fs p).1 p =
        ((cleanup_temp_files rmtreeFail fs p).1, false) := by
  refine ⟨?_, by simp [cleanup_temp_files], ?_⟩
  · unfold cleanup_temp_files
    by_cases hp : p ∈ fs
    · cases hfail : rmtreeFail p <;> simp [hp, hfail]
    · simp [hp]
  · unfold cleanup_temp_files
    by_cases hp : p ∈ fs
    · cases hfail : rmtreeFail p with
      | none =>
        have hout : p ∉ fs.filter (fun q => q ≠ p) := by simp
        simp [hp, hfail, hout]
      | some e =>
        simp [hp, hfail]
    · simp [hp]

/-- C10: whenever the tool exits 0, /analyze-vocals answers 200 with
success true and the constant processing_time `completed`, even when no
file in the output tree matches the vocal pattern: then vocal_extracted is
false and both reported stem sizes are 0. -/
theorem C10_success_without_artifact (req : UploadRequest) (inputSize : Nat) (stderr : String)
    (files : List FileEntry) (hA : req.hasAudio = true) (hF : req.filename ≠ "")
    (hnone : ∀ f ∈ files, containsL "vocals.mp3".data f.name.data = false) :
    analyze_vocals req inputSize (.exited 0 stderr) files =
      ⟨⟨200, .json (.analysis ⟨true, DEMUCS_MODEL, req.filename,
          roundCentiMB inputSize, 0, 0, false, "completed"⟩)⟩, true, 1, false⟩ := by
  have h := findAnalyze_none files hnone
  have h0 : roundCentiMB 0 = 0 := by decide
  simp [analyze_vocals, hA, hF, h, h0]

/-- C10 witness: instantiation at a tree containing only `drums.mp3`. -/
theorem C10_witness :
    analyze_vocals ⟨true, "a.mp3"⟩ 5242880 (.exited 0 "") [⟨"drums.mp3", "/o/d.mp3", 50⟩] =
      ⟨⟨200, .json (.analysis ⟨true, "htdemucs_ft", "a.mp3", 500, 0, 0, false, "completed"⟩)⟩,
        true, 1, false⟩ := by
  have h := C10_success_without_artifact ⟨true, "a.mp3"⟩ 5242880 ""
    [⟨"drums.mp3", "/o/d.mp3", 50⟩] rfl (by decide) (by decide)
  rw [h]
  decide

end KaraokeTones
